import Mathlib

/-!
Verification of the query-result-cache core of the healthcare analytics MCP
server (healthcare_mcp_server.py): the TTL result cache
(get_from_cache_or_execute, clear_cache), the parameter binder inside
execute_query, and the value normalizer (convert_decimal_values).

Machine integers and timestamps are modelled as Nat, Decimal scalars by their
exact rational value, and the 64-bit float produced by float(Decimal(...)) as a
tagged value that tracks the rational exactly (IEEE rounding is abstracted; no
claim here depends on rounding). Fallible code returns Except.
-/

namespace HealthcareMCP

/-- Model of a Python 64-bit float value: a finite value tracked exactly as a
rational, or the NaN sentinel. -/
inductive Flt where
  | finite : ℚ → Flt
  | nan : Flt

/-- Universe of runtime values that flow through the core: JSON-like
structures (dict, list, int, str, bool, None), plus the two warehouse-specific
scalar types the code treats specially, decimal.Decimal (modelled by its exact
rational value) and numpy floating scalars, plus datetime.date (an example of
a type the parameter binder does not recognize). pyFloat is a plain Python
float, npFloat a numpy floating scalar; the two are distinct runtime types and
the code distinguishes them. -/
inductive Value where
  | dict : List (String × Value) → Value
  | list : List Value → Value
  | decimal : ℚ → Value
  | pyFloat : Flt → Value
  | npFloat : Flt → Value
  | int : Int → Value
  | str : String → Value
  | bool : Bool → Value
  | date : Nat → Nat → Nat → Value
  | none : Value

/-- Model of pd.isna on the scalars of this universe: true for None and for
NaN-valued floats (Python or numpy), false otherwise. -/
def pdIsna : Value → Bool
  | .none => true
  | .pyFloat .nan => true
  | .npFloat .nan => true
  | _ => false

/-- Model of isinstance(obj, (pd.Series, np.floating)): among the values of
this universe only numpy floating scalars satisfy it (pandas Series never
reach convert_decimal_values). -/
def isNpFloating : Value → Bool
  | .npFloat _ => true
  | _ => false

/-- Model of float(obj) applied to a Decimal: produces a Python float. The
rational value is carried exactly; IEEE rounding is abstracted. -/
def floatOfDecimal (q : ℚ) : Flt := .finite q

mutual

/-- Embedding of convert_decimal_values from healthcare_mcp_server.py:
dict branch, list branch, Decimal branch, the pd.isna-and-np.floating branch
returning None, and the final pass-through branch. -/
def convert_decimal_values : Value → Value
  | .dict kvs => .dict (convertPairs kvs)
  | .list xs => .list (convertItems xs)
  | .decimal q => .pyFloat (floatOfDecimal q)
  | v => if pdIsna v && isNpFloating v then .none else v

/-- The dict comprehension inside convert_decimal_values: same keys, every
value converted recursively. -/
def convertPairs : List (String × Value) → List (String × Value)
  | [] => []
  | (k, v) :: rest => (k, convert_decimal_values v) :: convertPairs rest

/-- The list comprehension inside convert_decimal_values: every item converted
recursively, same order. -/
def convertItems : List Value → List Value
  | [] => []
  | v :: rest => convert_decimal_values v :: convertItems rest

end

mutual

/-- Reference normalizer written from the words of the spec (section 4.2):
a mapping is returned with the same keys and every value recursively
normalized; a sequence keeps its length and order with every element
recursively normalized; an arbitrary-precision decimal scalar becomes a
64-bit float; the missing/NaN sentinel (a NaN of the numpy floating type that
a decimal-typed column produces, distinguished from a present Python float
NaN) becomes null; every other scalar passes through unchanged. -/
def normalizeSpec : Value → Value
  | .dict kvs => .dict (normalizeSpecPairs kvs)
  | .list xs => .list (normalizeSpecItems xs)
  | .decimal q => .pyFloat (floatOfDecimal q)
  | .npFloat .nan => .none
  | v => v

/-- Mapping case of the reference normalizer. -/
def normalizeSpecPairs : List (String × Value) → List (String × Value)
  | [] => []
  | (k, v) :: rest => (k, normalizeSpec v) :: normalizeSpecPairs rest

/-- Sequence case of the reference normalizer. -/
def normalizeSpecItems : List Value → List Value
  | [] => []
  | v :: rest => normalizeSpec v :: normalizeSpecItems rest

end

/-- The single-quote character used by the Python repr of strings, written by
code point. -/
def pyQuote : String := String.mk [Char.ofNat 39]

/-- Model of the Python str of a float (only determinism matters here). -/
def fltRepr : Flt → String
  | .finite q => toString q
  | .nan => "nan"

mutual

/-- Model of the Python str/repr of a value, as it appears inside
str(params): dict renders as brace-wrapped comma-separated entries in
insertion order, strings are quoted, True/False/None use their Python
spelling, Decimal and date render through their repr. Character escaping
inside strings is abstracted; what matters for the cache claims is that the
rendering is deterministic and follows insertion order. -/
def pyRepr : Value → String
  | .dict kvs => "\x7b" ++ String.intercalate ", " (pyReprPairs kvs) ++ "\x7d"
  | .list xs => "[" ++ String.intercalate ", " (pyReprItems xs) ++ "]"
  | .decimal q => "Decimal(" ++ pyQuote ++ toString q ++ pyQuote ++ ")"
  | .pyFloat f => fltRepr f
  | .npFloat f => fltRepr f
  | .int n => toString n
  | .str s => pyQuote ++ s ++ pyQuote
  | .bool b => if b then "True" else "False"
  | .date y m d => "datetime.date(" ++ toString y ++ ", " ++ toString m ++ ", " ++ toString d ++ ")"
  | .none => "None"

/-- Entries of a rendered dict: repr(key) colon repr(value), insertion order. -/
def pyReprPairs : List (String × Value) → List String
  | [] => []
  | (k, v) :: rest => (pyQuote ++ k ++ pyQuote ++ ": " ++ pyRepr v) :: pyReprPairs rest

/-- Items of a rendered list, in order. -/
def pyReprItems : List Value → List String
  | [] => []
  | v :: rest => pyRepr v :: pyReprItems rest

end

/-- A parameter mapping as passed to the core: name to value pairs in
insertion order (Python dict iteration follows insertion order, and keys are
unique). -/
abbrev ParamDict := List (String × Value)

/-- Model of hashlib.md5(s).hexdigest(): a deterministic fingerprint of the
input string. It is modelled as injective (the identity), since the spec
declares hash collisions out of scope; every claim below depends only on
equality or inequality of the digests of the inputs. -/
def md5Hexdigest (s : String) : String := s

/-- Embedding of the cache-key input built in get_from_cache_or_execute:
query + underscore + (str(params) if params else the string None). A missing
mapping and an empty mapping are both falsy in Python, so both render as
None; a non-empty mapping renders through str(dict), which follows insertion
order. -/
def cacheInput (query : String) (params : Option ParamDict) : String :=
  query ++ "_" ++
    (match params with
     | Option.some ps => if ps.isEmpty then "None" else pyRepr (Value.dict ps)
     | Option.none => "None")

/-- Embedding of the cache-key derivation: md5 hexdigest of the cache input. -/
def cacheKey (query : String) (params : Option ParamDict) : String :=
  md5Hexdigest (cacheInput query params)

/-- A pandas DataFrame column: its cells plus whether its dtype is object
(the only dtype the decimal-conversion pass in execute_query inspects). -/
structure Col where
  objectDtype : Bool
  cells : List Value

/-- A DataFrame: named columns in order. This is the Table of the spec, in
the column-major shape the code manipulates. -/
abbrev DataFrame := List (String × Col)

/-- The cache storage: the global CACHE dict, a mapping from hexdigest key to
the pair (DataFrame, timestamp), modelled as an insertion-ordered association
list with unique keys. -/
abbrev Cache := List (String × DataFrame × Nat)

/-- Dict lookup on the cache storage. -/
def cacheLookup (c : Cache) (k : String) : Option (DataFrame × Nat) :=
  match c with
  | [] => Option.none
  | (k2, d, t) :: rest => if k2 = k then Option.some (d, t) else cacheLookup rest k

/-- Dict deletion on the cache storage (del CACHE[key]). -/
def cacheErase (c : Cache) (k : String) : Cache :=
  c.filter (fun e => e.1 != k)

/-- Dict assignment on the cache storage (CACHE[key] = value): replaces in
place when the key is present, appends otherwise. -/
def cacheInsert (c : Cache) (k : String) (v : DataFrame × Nat) : Cache :=
  match c with
  | [] => [(k, v.1, v.2)]
  | (k2, d, t) :: rest =>
    if k2 = k then (k, v.1, v.2) :: rest else (k2, d, t) :: cacheInsert rest k v

/-- Whether a cell holds a Decimal (isinstance(x, Decimal)). -/
def isDecimalCell : Value → Bool
  | .decimal _ => true
  | _ => false

/-- Model of float(x) as applied cell-wise by astype(float) on an object
column: Decimal, int and bool become Python floats; floats stay floats. -/
def floatCast : Value → Value
  | .decimal q => .pyFloat (floatOfDecimal q)
  | .int n => .pyFloat (.finite (n : ℚ))
  | .bool b => .pyFloat (.finite (if b then 1 else 0))
  | .pyFloat f => .pyFloat f
  | .npFloat f => .pyFloat f
  | v => v

/-- Embedding of the per-column decimal pass at the end of execute_query:
for an object-dtype column, if the first cell is a Decimal the whole column is
cast to float; otherwise, if any non-missing cell is a Decimal, only the
Decimal cells are converted; other columns are left alone. -/
def convertCol (c : Col) : Col :=
  if c.objectDtype then
    match c.cells with
    | [] => c
    | x :: _ =>
      if isDecimalCell x then ⟨c.objectDtype, c.cells.map floatCast⟩
      else if c.cells.any (fun v => if !(pdIsna v) then isDecimalCell v else false) then
        ⟨c.objectDtype, c.cells.map (fun v => if isDecimalCell v then floatCast v else v)⟩
      else c
  else c

/-- A typed scalar query parameter as built by the loop in execute_query
(bigquery.ScalarQueryParameter(key, param_type, value)). -/
structure ScalarQueryParameter where
  name : String
  paramType : String
  value : Value

/-- Model of isinstance(value, bool). -/
def isPyBool : Value → Bool
  | .bool _ => true
  | _ => false

/-- Model of isinstance(value, int): in the Python runtime a bool is also an
int, which is why the code checks bool first. -/
def isPyInt : Value → Bool
  | .bool _ => true
  | .int _ => true
  | _ => false

/-- Model of isinstance(value, float). -/
def isPyFloat : Value → Bool
  | .pyFloat _ => true
  | _ => false

/-- Model of isinstance(value, str). -/
def isPyStr : Value → Bool
  | .str _ => true
  | _ => false

/-- Embedding of the parameter-type inference chain in execute_query, in
source order: bool, then int, then float, then str, then the default branch,
which also tags STRING. -/
def inferParamType (v : Value) : String :=
  if isPyBool v then "BOOL"
  else if isPyInt v then "INT64"
  else if isPyFloat v then "FLOAT64"
  else if isPyStr v then "STRING"
  else "STRING"

/-- Embedding of the parameter-binding loop in execute_query: each name-value
pair becomes a ScalarQueryParameter carrying the inferred type tag and the
value itself, passed through unchanged. -/
def bindParams (params : ParamDict) : List ScalarQueryParameter :=
  params.map (fun kv => ⟨kv.1, inferParamType kv.2, kv.2⟩)

/-- Embedding of execute_query: binds the parameters, submits the query to
the warehouse client, and applies the decimal pass to every column of the
returned DataFrame; any failure raised by the backend is re-raised as an
error whose message wraps the backend message. The backend round trip
(client.query + to_dataframe) is the external collaborator; one run of it is
represented by its outcome, the backend argument. -/
def execute_query (query : String) (params : Option ParamDict)
    (backend : Except String DataFrame) : Except String DataFrame :=
  let _jobParams : List ScalarQueryParameter :=
    match params with
    | Option.some ps => bindParams ps
    | Option.none => []
  match backend with
  | Except.ok df => Except.ok (df.map (fun col => (col.1, convertCol col.2)))
  | Except.error e => Except.error ("Query execution failed: " ++ e)

/-- Result of one call to get_from_cache_or_execute: the returned value or
propagated error, the cache storage afterwards, and how many times the query
execution was invoked during the call (0 or 1). -/
structure FetchResult where
  result : Except String DataFrame
  cache : Cache
  computeCalls : Nat

/-- Embedding of get_from_cache_or_execute: derive the key from query and
params; on a key present with age strictly below ttl_minutes * 60 return the
stored DataFrame unchanged; on an expired key delete the entry first; on a
miss (or after expiry deletion) run the query once, store the result with the
current timestamp, and return it; a failing run propagates its error and
stores nothing. The compute argument is the outcome execute_query would
produce at this call; computeCalls counts its uses. -/
def get_from_cache_or_execute (query : String) (params : Option ParamDict)
    (ttl_minutes : Nat) (compute : Except String DataFrame)
    (cache : Cache) (now : Nat) : FetchResult :=
  let key := cacheKey query params
  match cacheLookup cache key with
  | Option.some (data, timestamp) =>
    if now - timestamp < ttl_minutes * 60 then
      ⟨Except.ok data, cache, 0⟩
    else
      let cache2 := cacheErase cache key
      match compute with
      | Except.ok df => ⟨Except.ok df, cacheInsert cache2 key (df, now), 1⟩
      | Except.error e => ⟨Except.error e, cache2, 1⟩
  | Option.none =>
    match compute with
    | Except.ok df => ⟨Except.ok df, cacheInsert cache key (df, now), 1⟩
    | Except.error e => ⟨Except.error e, cache, 1⟩

/-- The status dict returned by clear_cache. -/
structure ClearStatus where
  status : String

/-- Embedding of clear_cache: records the size of the global CACHE, resets it
to an empty dict, and returns a status dict whose message embeds the old
size. -/
def clear_cache (c : Cache) : ClearStatus × Cache :=
  (⟨"Cache cleared - removed " ++ toString c.length ++ " entries"⟩, [])

/-- Concrete parameter mapping with keys a, b inserted in that order. -/
def paramsAB : ParamDict := [("a", Value.int 1), ("b", Value.int 2)]

/-- The same name-value pairs as paramsAB, inserted in the other order. -/
def paramsBA : ParamDict := [("b", Value.int 2), ("a", Value.int 1)]

/-- A concrete cache holding five entries. -/
def fiveEntryCache : Cache :=
  [("k1", [], 0), ("k2", [], 0), ("k3", [], 0), ("k4", [], 0), ("k5", [], 0)]

/-- The key derived for the query SELECT 1 with no parameters. -/
def keySelect1 : String := cacheKey "SELECT 1" Option.none

/-- A concrete cache whose single entry for keySelect1 is expired at time 3600
under a 60 minute TTL (stored at time 0). -/
def expiredCache : Cache := [(keySelect1, [], 0)]

/-! Helper lemmas about the cache storage operations. -/

theorem cacheLookup_insert (c : Cache) (k : String) (v : DataFrame × Nat) :
    cacheLookup (cacheInsert c k v) k = Option.some v := by
  induction c with
  | nil => simp [cacheInsert, cacheLookup]
  | cons e rest ih =>
    obtain ⟨k2, d, t⟩ := e
    by_cases hk : k2 = k
    · simp [cacheInsert, cacheLookup, hk]
    · simp [cacheInsert, cacheLookup, hk, ih]

theorem cacheLookup_erase (c : Cache) (k : String) :
    cacheLookup (cacheErase c k) k = Option.none := by
  induction c with
  | nil => simp [cacheErase, cacheLookup]
  | cons e rest ih =>
    obtain ⟨k2, d, t⟩ := e
    by_cases hk : k2 = k
    · simpa [cacheErase, hk] using ih
    · simpa [cacheErase, cacheLookup, hk] using ih

theorem cacheErase_of_lookup_none (c : Cache) (k : String)
    (h : cacheLookup c k = Option.none) : cacheErase c k = c := by
  induction c with
  | nil => simp [cacheErase]
  | cons e rest ih =>
    obtain ⟨k2, d, t⟩ := e
    by_cases hk : k2 = k
    · simp [cacheLookup, hk] at h
    · simp [cacheLookup, hk] at h
      simp [cacheErase, hk] at ih ⊢
      exact ih h

/-! Helper lemmas for the normalizer claims, proved by mutual structural
induction over the value universe. -/

mutual

theorem convEqSpec : ∀ v, convert_decimal_values v = normalizeSpec v
  | .dict kvs => congrArg Value.dict (convEqSpecPairs kvs)
  | .list xs => congrArg Value.list (convEqSpecItems xs)
  | .decimal _ => rfl
  | .pyFloat .nan => rfl
  | .pyFloat (.finite _) => rfl
  | .npFloat .nan => rfl
  | .npFloat (.finite _) => rfl
  | .int _ => rfl
  | .str _ => rfl
  | .bool _ => rfl
  | .date _ _ _ => rfl
  | .none => rfl

theorem convEqSpecPairs : ∀ kvs, convertPairs kvs = normalizeSpecPairs kvs
  | [] => rfl
  | (k, v) :: rest => by
    simp only [convertPairs, normalizeSpecPairs, convEqSpec v, convEqSpecPairs rest]

theorem convEqSpecItems : ∀ xs, convertItems xs = normalizeSpecItems xs
  | [] => rfl
  | v :: rest => by
    simp only [convertItems, normalizeSpecItems, convEqSpec v, convEqSpecItems rest]

end

mutual

theorem convIdem : ∀ v, convert_decimal_values (convert_decimal_values v) = convert_decimal_values v
  | .dict kvs => by
    simp only [convert_decimal_values, convIdemPairs kvs]
  | .list xs => by
    simp only [convert_decimal_values, convIdemItems xs]
  | .decimal _ => rfl
  | .pyFloat .nan => rfl
  | .pyFloat (.finite _) => rfl
  | .npFloat .nan => rfl
  | .npFloat (.finite _) => rfl
  | .int _ => rfl
  | .str _ => rfl
  | .bool _ => rfl
  | .date _ _ _ => rfl
  | .none => rfl

theorem convIdemPairs : ∀ kvs, convertPairs (convertPairs kvs) = convertPairs kvs
  | [] => rfl
  | (k, v) :: rest => by
    simp only [convertPairs, convIdem v, convIdemPairs rest]

theorem convIdemItems : ∀ xs, convertItems (convertItems xs) = convertItems xs
  | [] => rfl
  | v :: rest => by
    simp only [convertItems, convIdem v, convIdemItems rest]

end

/-- C6: convert_decimal_values matches the reference normalizer of the spec
on every input of the value universe: mappings keep their keys with values
recursively normalized, sequences keep order and length, Decimal scalars
become 64-bit floats, the missing/NaN sentinel (numpy floating NaN) becomes
null, and every other scalar, recognized or not, passes through unchanged
without failure. -/
theorem C6_normalizer_matches_reference (v : Value) :
    convert_decimal_values v = normalizeSpec v :=
  convEqSpec v

/-- C7: convert_decimal_values is idempotent on every input, including
Decimal scalars, nested mappings, nested sequences, and null-like values:
applying it a second time never changes an already-normalized value. -/
theorem C7_normalizer_idempotent (v : Value) :
    convert_decimal_values (convert_decimal_values v) = convert_decimal_values v :=
  convIdem v

/-- C1: with a cache entry for the derived key whose age is strictly below
the TTL, get_from_cache_or_execute returns the stored DataFrame unchanged,
leaves the cache untouched and never invokes the query execution; and two
calls with identical arguments starting from a key miss, the second within
the TTL window of the first, invoke the query execution exactly once in
total, the second call being a pure hit on the result of the first. -/
theorem C1_cache_hit_pure_single_compute
    (query : String) (params : Option ParamDict) (ttl : Nat)
    (compute : Except String DataFrame) :
    (∀ (c : Cache) (now ts : Nat) (data : DataFrame),
       cacheLookup c (cacheKey query params) = Option.some (data, ts) →
       now - ts < ttl * 60 →
       get_from_cache_or_execute query params ttl compute c now =
         ⟨Except.ok data, c, 0⟩) ∧
    (∀ (c0 : Cache) (now1 now2 : Nat) (df : DataFrame),
       cacheLookup c0 (cacheKey query params) = Option.none →
       now2 - now1 < ttl * 60 →
       (get_from_cache_or_execute query params ttl (Except.ok df) c0 now1).computeCalls +
         (get_from_cache_or_execute query params ttl compute
            (get_from_cache_or_execute query params ttl (Except.ok df) c0 now1).cache
            now2).computeCalls = 1 ∧
       (get_from_cache_or_execute query params ttl compute
          (get_from_cache_or_execute query params ttl (Except.ok df) c0 now1).cache
          now2).result = Except.ok df) := by
  constructor
  · intro c now ts data hlook hfresh
    simp [get_from_cache_or_execute, hlook, hfresh]
  · intro c0 now1 now2 df hmiss hfresh
    have h1 : get_from_cache_or_execute query params ttl (Except.ok df) c0 now1 =
        ⟨Except.ok df, cacheInsert c0 (cacheKey query params) (df, now1), 1⟩ := by
      simp [get_from_cache_or_execute, hmiss]
    have h2 : get_from_cache_or_execute query params ttl compute
        (cacheInsert c0 (cacheKey query params) (df, now1)) now2 =
        ⟨Except.ok df, cacheInsert c0 (cacheKey query params) (df, now1), 0⟩ := by
      simp [get_from_cache_or_execute, cacheLookup_insert, hfresh]
    rw [h1]
    simp [h2]

/-- C1 witness: a concrete fresh hit returns the stored table with the cache
unchanged and no execution even when the execution outcome would be an error,
and a concrete miss-then-hit pair of calls performs exactly one execution. -/
theorem C1_witness :
    get_from_cache_or_execute "q" Option.none 60 (Except.error "boom")
        [("q_None", [], 5)] 10 = ⟨Except.ok [], [("q_None", [], 5)], 0⟩ ∧
    (get_from_cache_or_execute "q" Option.none 60 (Except.ok []) [] 0).computeCalls +
      (get_from_cache_or_execute "q" Option.none 60 (Except.error "boom")
         (get_from_cache_or_execute "q" Option.none 60 (Except.ok []) [] 0).cache
         30).computeCalls = 1 := by
  constructor
  · exact (C1_cache_hit_pure_single_compute "q" Option.none 60 (Except.error "boom")).1
      [("q_None", [], 5)] 10 5 [] rfl (by decide)
  · exact ((C1_cache_hit_pure_single_compute "q" Option.none 60 (Except.error "boom")).2
      [] 0 30 [] rfl (by decide)).1

/-- C3: on a key miss, or on an entry whose age has reached the TTL, the call
removes any expired entry, invokes the query execution exactly once, stores
the fresh result under the key with the current time as its timestamp, and
returns the fresh result; and calling once from a miss, waiting at least the
TTL, then calling again invokes the execution a second time and stores the
second result with the later timestamp. -/
theorem C3_miss_or_expired_recompute
    (query : String) (params : Option ParamDict) (ttl : Nat) :
    (∀ (c : Cache) (now : Nat) (df : DataFrame),
       (cacheLookup c (cacheKey query params) = Option.none ∨
        (∃ d ts, cacheLookup c (cacheKey query params) = Option.some (d, ts) ∧
           ttl * 60 ≤ now - ts)) →
       get_from_cache_or_execute query params ttl (Except.ok df) c now =
         ⟨Except.ok df,
          cacheInsert (cacheErase c (cacheKey query params))
            (cacheKey query params) (df, now), 1⟩ ∧
       cacheLookup
          (get_from_cache_or_execute query params ttl (Except.ok df) c now).cache
          (cacheKey query params) = Option.some (df, now)) ∧
    (∀ (c0 : Cache) (now1 now2 : Nat) (df1 df2 : DataFrame),
       cacheLookup c0 (cacheKey query params) = Option.none →
       ttl * 60 ≤ now2 - now1 →
       (get_from_cache_or_execute query params ttl (Except.ok df1) c0 now1).computeCalls +
         (get_from_cache_or_execute query params ttl (Except.ok df2)
            (get_from_cache_or_execute query params ttl (Except.ok df1) c0 now1).cache
            now2).computeCalls = 2 ∧
       (get_from_cache_or_execute query params ttl (Except.ok df2)
          (get_from_cache_or_execute query params ttl (Except.ok df1) c0 now1).cache
          now2).result = Except.ok df2 ∧
       cacheLookup
          (get_from_cache_or_execute query params ttl (Except.ok df2)
             (get_from_cache_or_execute query params ttl (Except.ok df1) c0 now1).cache
             now2).cache
          (cacheKey query params) = Option.some (df2, now2)) := by
  have main : ∀ (c : Cache) (now : Nat) (df : DataFrame),
      (cacheLookup c (cacheKey query params) = Option.none ∨
       (∃ d ts, cacheLookup c (cacheKey query params) = Option.some (d, ts) ∧
          ttl * 60 ≤ now - ts)) →
      get_from_cache_or_execute query params ttl (Except.ok df) c now =
        ⟨Except.ok df,
         cacheInsert (cacheErase c (cacheKey query params))
           (cacheKey query params) (df, now), 1⟩ := by
    intro c now df h
    rcases h with hmiss | ⟨d, ts, hsome, hexp⟩
    · rw [cacheErase_of_lookup_none c (cacheKey query params) hmiss]
      simp [get_from_cache_or_execute, hmiss]
    · have hnotlt : ¬ (now - ts < ttl * 60) := Nat.not_lt.mpr hexp
      simp [get_from_cache_or_execute, hsome, hnotlt]
  constructor
  · intro c now df h
    refine ⟨main c now df h, ?_⟩
    rw [main c now df h]
    exact cacheLookup_insert _ _ _
  · intro c0 now1 now2 df1 df2 hmiss hwait
    have h1 := main c0 now1 df1 (Or.inl hmiss)
    rw [cacheErase_of_lookup_none c0 (cacheKey query params) hmiss] at h1
    have hlook2 : cacheLookup (cacheInsert c0 (cacheKey query params) (df1, now1))
        (cacheKey query params) = Option.some (df1, now1) := cacheLookup_insert _ _ _
    have h2 := main (cacheInsert c0 (cacheKey query params) (df1, now1)) now2 df2
        (Or.inr ⟨df1, now1, hlook2, hwait⟩)
    rw [h1]
    refine ⟨?_, ?_, ?_⟩ <;> simp [h2, cacheLookup_insert]

/-- C3 witness: a concrete first call from the empty cache executes once and
stores the result at time 0, and a second call 3600 seconds later under a 60
minute TTL executes again, for two executions in total, returning and storing
the second result. -/
theorem C3_witness :
    get_from_cache_or_execute "q" Option.none 60 (Except.ok []) [] 0 =
      ⟨Except.ok [], [("q_None", [], 0)], 1⟩ ∧
    (get_from_cache_or_execute "q" Option.none 60 (Except.ok []) [] 0).computeCalls +
      (get_from_cache_or_execute "q" Option.none 60 (Except.ok [("v", ⟨true, []⟩)])
         (get_from_cache_or_execute "q" Option.none 60 (Except.ok []) [] 0).cache
         3600).computeCalls = 2 := by
  constructor
  · exact ((C3_miss_or_expired_recompute "q" Option.none 60).1 [] 0 [] (Or.inl rfl)).1
  · exact ((C3_miss_or_expired_recompute "q" Option.none 60).2
      [] 0 3600 [] [("v", ⟨true, []⟩)] rfl (by decide)).1

/-- C4 counterexample: on a cache holding five entries, clear_cache does not
return the integer count of removed entries; it returns a status dict whose
message embeds the count as text, and that message is not even the numeral
rendering of five. -/
theorem C4_counterexample :
    (clear_cache fiveEntryCache).1 = ⟨"Cache cleared - removed 5 entries"⟩ ∧
    (clear_cache fiveEntryCache).1.status ≠ toString (5 : Nat) := by
  refine ⟨rfl, ?_⟩
  decide

/-- C4 (amended): clear_cache removes every entry, every subsequent lookup
for any previously cached key is a miss (a following call with a successful
execution recomputes), and the returned status dict reports the old entry
count inside its message, e.g. for five entries the message reports 5. -/
theorem C4_clear_removes_all
    (c : Cache) (k query : String) (params : Option ParamDict) (ttl now : Nat)
    (df : DataFrame) :
    (clear_cache c).2 = [] ∧
    cacheLookup (clear_cache c).2 k = Option.none ∧
    (clear_cache c).1.status =
      "Cache cleared - removed " ++ toString c.length ++ " entries" ∧
    (get_from_cache_or_execute query params ttl (Except.ok df)
        (clear_cache c).2 now).computeCalls = 1 := by
  refine ⟨rfl, rfl, rfl, ?_⟩
  simp [get_from_cache_or_execute, clear_cache, cacheLookup]

/-- C2 counterexample: the two parameter mappings with exactly the same
name-value pairs inserted in different orders are a permutation of one
another, yet they derive different cache keys for the same query text, and
the second call after the first is a miss that invokes the execution again
instead of hitting the cache. -/
theorem C2_counterexample :
    List.Perm paramsAB paramsBA ∧
    cacheKey "SELECT 1" (Option.some paramsAB) ≠
      cacheKey "SELECT 1" (Option.some paramsBA) ∧
    (get_from_cache_or_execute "SELECT 1" (Option.some paramsBA) 60 (Except.ok [])
       (get_from_cache_or_execute "SELECT 1" (Option.some paramsAB) 60 (Except.ok [])
          [] 0).cache 0).computeCalls = 1 := by
  refine ⟨List.Perm.swap ("b", Value.int 2) ("a", Value.int 1) [], ?_, ?_⟩
  · decide
  · rfl

/-- C2 (amended): the cache key is derived from the order-sensitive
serialization of the parameter mapping, not from its name-value set: for
every query text, two non-empty mappings that serialize identically (in
particular, the same pairs in the same iteration order) derive the same key,
and two mappings that serialize differently (in particular, the same pairs in
a different iteration order) derive different keys, so the reordered lookup
is a false miss. -/
theorem C2_key_follows_serialization
    (query : String) (p1 p2 : ParamDict)
    (h1 : p1.isEmpty = false) (h2 : p2.isEmpty = false) :
    (pyRepr (Value.dict p1) = pyRepr (Value.dict p2) →
      cacheKey query (Option.some p1) = cacheKey query (Option.some p2)) ∧
    (pyRepr (Value.dict p1) ≠ pyRepr (Value.dict p2) →
      cacheKey query (Option.some p1) ≠ cacheKey query (Option.some p2)) := by
  constructor
  · intro h
    simp [cacheKey, cacheInput, md5Hexdigest, h1, h2, h]
  · intro h hk
    apply h
    have hk2 : query ++ "_" ++ pyRepr (Value.dict p1) =
        query ++ "_" ++ pyRepr (Value.dict p2) := by
      simpa [cacheKey, cacheInput, md5Hexdigest, h1, h2] using hk
    have hd := congrArg String.data hk2
    simp only [String.data_append, List.append_assoc] at hd
    exact String.ext (List.append_cancel_left (List.append_cancel_left hd))

/-- C2 witness: at the concrete reordered mappings the serializations differ,
hence the derived keys differ. -/
theorem C2_key_follows_serialization_witness :
    cacheKey "SELECT 1" (Option.some paramsAB) ≠
      cacheKey "SELECT 1" (Option.some paramsBA) :=
  (C2_key_follows_serialization "SELECT 1" paramsAB paramsBA rfl rfl).2 (by decide)

/-- C5 counterexample: with an expired entry under the key and a failing
execution, the call propagates the wrapped error and writes nothing, but the
cache state for that key does change: the expired entry is deleted before the
execution runs, so the key that mapped to an entry before the failing call
maps to nothing after it. -/
theorem C5_counterexample :
    (get_from_cache_or_execute "SELECT 1" Option.none 60
       (execute_query "SELECT 1" Option.none (Except.error "boom"))
       expiredCache 3600).result =
      Except.error "Query execution failed: boom" ∧
    cacheLookup expiredCache keySelect1 = Option.some ([], 0) ∧
    cacheLookup
      (get_from_cache_or_execute "SELECT 1" Option.none 60
         (execute_query "SELECT 1" Option.none (Except.error "boom"))
         expiredCache 3600).cache keySelect1 = Option.none := by
  exact ⟨rfl, rfl, rfl⟩

/-- C5 (amended): when the query execution fails on a miss or on an expired
entry, get_from_cache_or_execute propagates the error, whose message wraps
the backend message, and never writes a cache entry: afterwards the key maps
to nothing, and the whole cache equals the original with any entry under the
key erased (so on a plain miss the cache is unchanged, while an expired entry
is still removed even though the execution failed); the call returns the
error, never a partially computed table. -/
theorem C5_no_cache_write_on_failure
    (query : String) (params : Option ParamDict) (ttl : Nat)
    (c : Cache) (now : Nat) (e : String)
    (h : cacheLookup c (cacheKey query params) = Option.none ∨
         (∃ d ts, cacheLookup c (cacheKey query params) = Option.some (d, ts) ∧
            ttl * 60 ≤ now - ts)) :
    (get_from_cache_or_execute query params ttl
        (execute_query query params (Except.error e)) c now).result =
      Except.error ("Query execution failed: " ++ e) ∧
    (get_from_cache_or_execute query params ttl
        (execute_query query params (Except.error e)) c now).cache =
      cacheErase c (cacheKey query params) ∧
    cacheLookup
      (get_from_cache_or_execute query params ttl
          (execute_query query params (Except.error e)) c now).cache
      (cacheKey query params) = Option.none := by
  have hrun : get_from_cache_or_execute query params ttl
      (execute_query query params (Except.error e)) c now =
      ⟨Except.error ("Query execution failed: " ++ e),
       cacheErase c (cacheKey query params), 1⟩ := by
    rcases h with hmiss | ⟨d, ts, hsome, hexp⟩
    · rw [cacheErase_of_lookup_none c (cacheKey query params) hmiss]
      simp [get_from_cache_or_execute, execute_query, hmiss]
    · have hnotlt : ¬ (now - ts < ttl * 60) := Nat.not_lt.mpr hexp
      simp [get_from_cache_or_execute, execute_query, hsome, hnotlt]
  rw [hrun]
  exact ⟨rfl, rfl, cacheLookup_erase _ _⟩

/-- C5 witness: from the empty cache a failing execution propagates the
wrapped message, leaves the cache empty and stores nothing. -/
theorem C5_no_cache_write_on_failure_witness :
    (get_from_cache_or_execute "q" Option.none 60
        (execute_query "q" Option.none (Except.error "table missing")) [] 0).result =
      Except.error "Query execution failed: table missing" ∧
    (get_from_cache_or_execute "q" Option.none 60
        (execute_query "q" Option.none (Except.error "table missing")) [] 0).cache =
      cacheErase [] (cacheKey "q" Option.none) :=
  ⟨(C5_no_cache_write_on_failure "q" Option.none 60 [] 0 "table missing"
      (Or.inl rfl)).1,
   (C5_no_cache_write_on_failure "q" Option.none 60 [] 0 "table missing"
      (Or.inl rfl)).2.1⟩

/-- C8 counterexample: binding a mapping whose value is a date object yields
the STRING tag but passes the date value through unchanged: the produced
ParameterValue holds the date itself, which is not a string at all, so the
value is not coerced to its string representation. -/
theorem C8_counterexample :
    bindParams [("d", Value.date 2020 1 1)] =
      [⟨"d", "STRING", Value.date 2020 1 1⟩] ∧
    isPyStr (Value.date 2020 1 1) = false :=
  ⟨rfl, rfl⟩

/-- C8 (amended): the parameter binder is total and follows the strict
precedence bool, then int, then float, then str: each of the four explicit
kinds receives its matching tag, a bool also satisfies the runtime int check
yet is tagged BOOL because the bool check comes first, and a value of an
unrecognized type such as a date object is tagged STRING with the original
value passed through unchanged (string conversion is left to the backend
client) rather than causing the binder to raise; binding preserves the names,
the values and the length of the mapping. -/
theorem C8_binder_total_precedence
    (params : ParamDict) (b : Bool) (n : Int) (f : Flt) (s : String)
    (y m d : Nat) :
    inferParamType (Value.bool b) = "BOOL" ∧
    isPyInt (Value.bool b) = true ∧
    inferParamType (Value.int n) = "INT64" ∧
    inferParamType (Value.pyFloat f) = "FLOAT64" ∧
    inferParamType (Value.str s) = "STRING" ∧
    inferParamType (Value.date y m d) = "STRING" ∧
    (bindParams params).map ScalarQueryParameter.name = params.map Prod.fst ∧
    (bindParams params).map ScalarQueryParameter.value = params.map Prod.snd ∧
    (bindParams params).length = params.length := by
  refine ⟨rfl, rfl, rfl, rfl, rfl, rfl, ?_, ?_, ?_⟩ <;>
    simp [bindParams, List.map_map, Function.comp]

/-- C10: an absent parameter mapping and a present empty mapping are both
falsy, so both serialize as None and derive the same cache key; a call with
absent params followed within the TTL window by a call with empty params is a
hit on the entry the first call stored, returning that result without running
the execution again. -/
theorem C10_none_and_empty_share_key
    (query : String) (ttl : Nat) (c0 : Cache) (now1 now2 : Nat) (df : DataFrame)
    (compute2 : Except String DataFrame)
    (hmiss : cacheLookup c0 (cacheKey query Option.none) = Option.none)
    (hfresh : now2 - now1 < ttl * 60) :
    cacheKey query Option.none = cacheKey query (Option.some []) ∧
    get_from_cache_or_execute query (Option.some []) ttl compute2
        (get_from_cache_or_execute query Option.none ttl (Except.ok df) c0 now1).cache
        now2 =
      ⟨Except.ok df,
       (get_from_cache_or_execute query Option.none ttl (Except.ok df) c0 now1).cache,
       0⟩ := by
  have hkey : cacheKey query Option.none = cacheKey query (Option.some []) := rfl
  refine ⟨hkey, ?_⟩
  have h1 : get_from_cache_or_execute query Option.none ttl (Except.ok df) c0 now1 =
      ⟨Except.ok df, cacheInsert c0 (cacheKey query Option.none) (df, now1), 1⟩ := by
    simp [get_from_cache_or_execute, hmiss]
  rw [h1]
  have hlook : cacheLookup (cacheInsert c0 (cacheKey query Option.none) (df, now1))
      (cacheKey query (Option.some [])) = Option.some (df, now1) := by
    rw [← hkey]
    exact cacheLookup_insert _ _ _
  simp [get_from_cache_or_execute, hlook, hfresh]

/-- C10 witness: with the concrete query SELECT 1, a call with absent params
from the empty cache followed 30 seconds later by a call with empty params
returns the stored result as a pure hit, even though the second execution
outcome would have been an error. -/
theorem C10_none_and_empty_share_key_witness :
    cacheKey "SELECT 1" Option.none = cacheKey "SELECT 1" (Option.some []) ∧
    get_from_cache_or_execute "SELECT 1" (Option.some []) 60 (Except.error "boom")
        (get_from_cache_or_execute "SELECT 1" Option.none 60 (Except.ok []) [] 0).cache
        30 =
      ⟨Except.ok [],
       (get_from_cache_or_execute "SELECT 1" Option.none 60 (Except.ok []) [] 0).cache,
       0⟩ :=
  C10_none_and_empty_share_key "SELECT 1" 60 [] 0 30 [] (Except.error "boom") rfl
    (by decide)

end HealthcareMCP
